import Mathlib

/-!
Verification of the data-standardization core of the charging-infrastructure
ingestion system: a shallow embedding of `UnifiedDataRepository`
(src/utils/unified_data_repository.py), `DataValidator`
(src/utils/data_validator.py) and the datetime/identifier/resolution logic of
the Session and Forecast adapters (src/utils/data_adapters/).

Python dicts are modelled as association lists with first-occurrence lookup
and in-place update; Python exceptions are modelled with `Except`; the wall
clock and random UUID source are explicit parameters; the external datetime
parsers (`pd.to_datetime`, `datetime.fromisoformat`) are function parameters,
instantiated with small concrete parsers in closed statements.
-/

namespace Spec2Proof

/-- Python `dict` lookup `m[k]` / `k in m`: association-list lookup on the
first matching key (keys in our dicts are unique, as in Python). -/
def alookup {β : Type} (m : List (String × β)) (k : String) : Option β :=
  match m with
  | [] => none
  | (k', v) :: rest => if k' = k then some v else alookup rest k

/-- Python `dict` assignment `m[k] = v`: replace the value at `k` in place if
present, else append the new binding at the end. -/
def dinsert {β : Type} (m : List (String × β)) (k : String) (v : β) : List (String × β) :=
  match m with
  | [] => [(k, v)]
  | (k', v') :: rest => if k' = k then (k, v) :: rest else (k', v') :: dinsert rest k v

/-- Python `base.update(upd)`: key-by-key assignment of every binding of
`upd` into `base`. -/
def dupdate {β : Type} (base upd : List (String × β)) : List (String × β) :=
  upd.foldl (fun acc p => dinsert acc p.1 p.2) base

theorem alookup_dinsert_self {β : Type} (m : List (String × β)) (k : String) (v : β) :
    alookup (dinsert m k v) k = some v := by
  induction m with
  | nil => simp [dinsert, alookup]
  | cons hd tl ih =>
    obtain ⟨k', v'⟩ := hd
    by_cases h : k' = k
    · simp [dinsert, h, alookup]
    · simp [dinsert, h, alookup, ih]

theorem alookup_dinsert_ne {β : Type} (m : List (String × β)) (k k' : String) (v : β)
    (h : k ≠ k') : alookup (dinsert m k v) k' = alookup m k' := by
  induction m with
  | nil => simp [dinsert, alookup, h]
  | cons hd tl ih =>
    obtain ⟨k0, v0⟩ := hd
    by_cases h0 : k0 = k
    · subst h0
      simp [dinsert, alookup, h, Ne.symm h]
    · by_cases h1 : k0 = k'
      · simp [dinsert, h0, alookup, h1, Ne.symm h]
      · simp [dinsert, h0, alookup, h1, ih]

theorem alookup_eq_none_of_not_mem_keys {β : Type} (m : List (String × β)) (k : String)
    (h : k ∉ m.map Prod.fst) : alookup m k = none := by
  induction m with
  | nil => rfl
  | cons hd tl ih =>
    obtain ⟨k', v⟩ := hd
    simp only [List.map_cons, List.mem_cons] at h
    push_neg at h
    have hk : k' ≠ k := Ne.symm h.1
    simp [alookup, hk, ih h.2]

theorem alookup_dupdate_of_none {β : Type} (base upd : List (String × β)) (k : String)
    (h : alookup upd k = none) : alookup (dupdate base upd) k = alookup base k := by
  induction upd generalizing base with
  | nil => rfl
  | cons hd tl ih =>
    obtain ⟨k', v⟩ := hd
    simp only [alookup] at h
    by_cases hk : k' = k
    · simp [hk] at h
    · simp only [dupdate, List.foldl_cons] at *
      rw [ih (dinsert base k' v) (by simpa [hk] using h)]
      exact alookup_dinsert_ne base k' k v hk

theorem alookup_dupdate_of_some {β : Type} (base upd : List (String × β)) (k : String) (v : β)
    (hnd : (upd.map Prod.fst).Nodup) (h : alookup upd k = some v) :
    alookup (dupdate base upd) k = some v := by
  induction upd generalizing base with
  | nil => simp [alookup] at h
  | cons hd tl ih =>
    obtain ⟨k', v'⟩ := hd
    simp only [List.map_cons, List.nodup_cons] at hnd
    simp only [alookup] at h
    by_cases hk : k' = k
    · subst hk
      rw [if_pos rfl] at h
      injection h with h
      subst h
      have hstep : dupdate base ((k', v') :: tl) = dupdate (dinsert base k' v') tl := rfl
      rw [hstep]
      have htl : alookup tl k' = none :=
        alookup_eq_none_of_not_mem_keys tl k' hnd.1
      rw [alookup_dupdate_of_none (dinsert base k' v') tl k' htl]
      exact alookup_dinsert_self base k' v'
    · simp only [if_neg hk] at h
      have hstep : dupdate base ((k', v') :: tl) = dupdate (dinsert base k' v') tl := rfl
      rw [hstep]
      exact ih (dinsert base k' v') hnd.2 h

/-! ## UnifiedDataRepository (src/utils/unified_data_repository.py) -/

/-- A tabular cell value. -/
inductive Cell where
  | s (v : String)
  | i (n : Int)
deriving DecidableEq, Repr

/-- A filter condition value in `get_dataset`: a scalar (equality) or a list
(membership), per `UnifiedDataRepository.get_dataset` lines 72-75. -/
inductive FilterVal where
  | scalar (c : Cell)
  | list (cs : List Cell)
deriving DecidableEq, Repr

/-- A pandas DataFrame: named columns and rows of cells keyed by column. -/
structure DataFrame where
  cols : List String
  rows : List (List (String × Cell))
deriving DecidableEq, Repr

/-- A registered payload: a DataFrame (the filterable case) or any other
opaque value (`data: Any` in the source). -/
inductive Payload where
  | df (d : DataFrame)
  | raw (n : Nat)
deriving DecidableEq, Repr

/-- A metadata value: an opaque string or the timestamp written by
`time.time()`. -/
inductive MetaVal where
  | str (v : String)
  | time (t : Nat)
deriving DecidableEq, Repr

/-- The repository state: `datasets`, `metadata` and `subscriptions` of
`UnifiedDataRepository._initialize`. Callbacks are identified by `Nat`. -/
structure RepoState where
  datasets : List (String × Payload)
  metadata : List (String × List (String × MetaVal))
  subscriptions : List (String × List Nat)
deriving DecidableEq, Repr

/-- The repository constructed by `_initialize`: all containers empty. -/
def initRepo : RepoState := { datasets := [], metadata := [], subscriptions := [] }

/-- The distinct failure of `get_dataset` on an unknown id:
`raise KeyError(f"Dataset not found: {dataset_id}")`. -/
inductive RepoError where
  | notFound (dataset_id : String)
deriving DecidableEq, Repr

/-- `row[col] == value` / `row[col].isin(value)` for one row, per
`get_dataset` lines 72-75. -/
def cellMatches (c : Option Cell) (v : FilterVal) : Bool :=
  match c, v with
  | some c, .scalar x => c = x
  | some c, .list xs => c ∈ xs
  | none, _ => false

/-- One iteration of the filter loop of `get_dataset` (lines 70-75): a filter
on a column not present in the DataFrame is skipped. -/
def applyFilter (d : DataFrame) (col : String) (v : FilterVal) : DataFrame :=
  if col ∈ d.cols then
    { d with rows := d.rows.filter (fun r => cellMatches (alookup r col) v) }
  else d

/-- The full filter loop of `get_dataset` (lines 70-75). -/
def applyFilters (d : DataFrame) (fs : List (String × FilterVal)) : DataFrame :=
  fs.foldl (fun acc p => applyFilter acc p.1 p.2) d

/-- `UnifiedDataRepository.get_dataset` (lines 52-77). `none` filters model
Python `None`; filters are applied only when truthy (non-empty) and the
payload is a DataFrame. -/
def get_dataset (st : RepoState) (dataset_id : String)
    (filters : Option (List (String × FilterVal))) : Except RepoError Payload :=
  match alookup st.datasets dataset_id with
  | none => .error (.notFound dataset_id)
  | some data =>
    match filters, data with
    | some fs, .df d => if fs.isEmpty then .ok data else .ok (.df (applyFilters d fs))
    | _, _ => .ok data

/-- `UnifiedDataRepository._notify_subscribers` (lines 104-111): each callback
is called with the stored payload; `run` gives each callback's behaviour and a
`.error` models a raised exception, which the `try/except` catches and logs
before moving to the next callback. Returns the invocation trace. -/
def notify_subscribers (run : Nat → Payload → Except String Unit)
    (cbs : List Nat) (payload : Payload) : List (Nat × Payload) :=
  match cbs with
  | [] => []
  | c :: rest =>
    match run c payload with
    | .ok _ => (c, payload) :: notify_subscribers run rest payload
    | .error _ => (c, payload) :: notify_subscribers run rest payload

/-- The metadata-merge step of `register_dataset` (lines 91-95): it runs only
when the metadata argument is truthy (`if metadata:`), so a missing argument
(`none`) and an empty dict behave alike; it creates the entry when absent and
merges key-by-key via `dict.update`. -/
def mergeMetadata (metadata : List (String × List (String × MetaVal)))
    (dataset_id : String) (meta : Option (List (String × MetaVal))) :
    List (String × List (String × MetaVal)) :=
  match meta with
  | some m =>
    if m.isEmpty then metadata
    else dinsert metadata dataset_id (dupdate ((alookup metadata dataset_id).getD []) m)
  | none => metadata

/-- The auto-stamp step of `register_dataset` (lines 97-99): when the id has
a metadata entry lacking `last_updated`, stamp it with `time.time()`. -/
def stampMetadata (metadata : List (String × List (String × MetaVal)))
    (dataset_id : String) (now : Nat) : List (String × List (String × MetaVal)) :=
  match alookup metadata dataset_id with
  | some entry =>
    if (alookup entry "last_updated").isSome then metadata
    else dinsert metadata dataset_id (dinsert entry "last_updated" (MetaVal.time now))
  | none => metadata

/-- `UnifiedDataRepository.register_dataset` (lines 79-102). `now` models
`time.time()`; `meta = none` models passing no metadata argument. Stores the
payload wholesale, merges then stamps metadata, and notifies subscribers with
the stored payload. Returns the new state and the subscriber invocation
trace. -/
def register_dataset (run : Nat → Payload → Except String Unit) (now : Nat)
    (st : RepoState) (dataset_id : String) (data : Payload)
    (meta : Option (List (String × MetaVal))) : RepoState × List (Nat × Payload) :=
  ({ st with
      datasets := dinsert st.datasets dataset_id data
      metadata := stampMetadata (mergeMetadata st.metadata dataset_id meta) dataset_id now },
   notify_subscribers run ((alookup st.subscriptions dataset_id).getD []) data)

/-- `UnifiedDataRepository.subscribe` (lines 113-125): ensure a callback list
exists for the id, then append the callback only if not already present. -/
def subscribe (st : RepoState) (dataset_id : String) (cb : Nat) : RepoState :=
  let subs1 :=
    match alookup st.subscriptions dataset_id with
    | none => dinsert st.subscriptions dataset_id []
    | some _ => st.subscriptions
  match alookup subs1 dataset_id with
  | some cbs =>
    if cb ∈ cbs then { st with subscriptions := subs1 }
    else { st with subscriptions := dinsert subs1 dataset_id (cbs ++ [cb]) }
  | none => { st with subscriptions := subs1 }

/-- `UnifiedDataRepository.unsubscribe` (lines 127-141): remove the callback
and return `true` if it was subscribed, else change nothing and return
`false`. -/
def unsubscribe (st : RepoState) (dataset_id : String) (cb : Nat) : RepoState × Bool :=
  match alookup st.subscriptions dataset_id with
  | some cbs =>
    if cb ∈ cbs then
      ({ st with subscriptions := dinsert st.subscriptions dataset_id (cbs.erase cb) }, true)
    else (st, false)
  | none => (st, false)

/-! ## DataValidator (src/utils/data_validator.py) -/

/-- An object presented to the validator: a dict of fields. -/
def VObj : Type := List (String × Cell)

instance : DecidableEq VObj := by
  unfold VObj
  infer_instance

/-- The kind of schema-evaluation function backing `validate_object`: for a
schema name and object, either the list of formatted violation messages from
`Draft7Validator(schema).iter_errors(obj)` (empty = valid), or `.error e`
when evaluation itself raises with message `e`. -/
def SchemaCheck : Type := String → VObj → Except String (List String)

/-- `DataValidator.validate_object` (lines 50-78). `schemas` is the set of
loaded schema names. Schema evaluation is not wrapped in any `try/except` in
the source, so a raised exception propagates as `.error`. -/
def validate_object (schemas : List String) (check : SchemaCheck)
    (obj : VObj) (schema_name : String) : Except String (Bool × List String) :=
  if schema_name ∈ schemas then
    match check schema_name obj with
    | .error e => .error e
    | .ok [] => .ok (true, [])
    | .ok msgs => .ok (false, msgs)
  else .ok (false, ["Schema " ++ schema_name ++ " not found"])

/-- The identifier search of `validate_data` (lines 120-124): the value of
the first field of `['id', 'station_id', 'session_id', 'forecast_id']`
present in the object, else `None`. -/
def findIdentifier (fields : List String) (obj : VObj) : Option Cell :=
  match fields with
  | [] => none
  | f :: rest =>
    match alookup obj f with
    | some v => some v
    | none => findIdentifier rest obj

/-- The fixed priority order of identifier fields in `validate_data`. -/
def idPriority : List String := ["id", "station_id", "session_id", "forecast_id"]

/-- One entry of `error_examples` (lines 126-130). -/
structure ErrorExample where
  index : Nat
  identifier : Option Cell
  errors : List String
deriving DecidableEq, Repr

/-- Build the error example appended for an invalid object (lines 118-130). -/
def mkExample (i : Nat) (obj : VObj) (errs : List String) : ErrorExample :=
  { index := i, identifier := findIdentifier idPriority obj, errors := errs }

/-- The validation loop of `validate_data` (lines 109-130), with the running
counters returned. `budget = max_errors - len(error_examples)`: an example is
collected only while `len(error_examples) < max_errors`, which is exactly
`0 < budget` since the budget decreases by one per collected example. An
exception raised by `validate_object` aborts the whole call. -/
def validateLoop (schemas : List String) (check : SchemaCheck) (schema_name : String) :
    Nat → Nat → List VObj → Except String (Nat × Nat × List ErrorExample)
  | _, _, [] => .ok (0, 0, [])
  | i, budget, obj :: rest =>
    match validate_object schemas check obj schema_name with
    | .error e => .error e
    | .ok (true, _) =>
      match validateLoop schemas check schema_name (i + 1) budget rest with
      | .error e => .error e
      | .ok (v, inv, ex) => .ok (v + 1, inv, ex)
    | .ok (false, errs) =>
      if 0 < budget then
        match validateLoop schemas check schema_name (i + 1) (budget - 1) rest with
        | .error e => .error e
        | .ok (v, inv, ex) => .ok (v, inv + 1, mkExample i obj errs :: ex)
      else
        match validateLoop schemas check schema_name (i + 1) budget rest with
        | .error e => .error e
        | .ok (v, inv, ex) => .ok (v, inv + 1, ex)

/-- The validation report of `validate_data` (lines 133-140). -/
structure ValidationReport where
  total_objects : Nat
  valid_count : Nat
  invalid_count : Nat
  validation_success_rate : ℚ
  has_errors : Bool
  error_examples : List ErrorExample
deriving DecidableEq, Repr

/-- The result of `validate_data`: either the unknown-schema report
`{"error": ...}` (line 94) or the bool plus full report. -/
inductive ValidationResult where
  | schemaMissing (msg : String)
  | report (ok : Bool) (r : ValidationReport)
deriving DecidableEq, Repr

/-- `DataValidator.validate_data` (lines 80-142) over a list of objects. -/
def validate_data (schemas : List String) (check : SchemaCheck)
    (data : List VObj) (schema_name : String) (max_errors : Nat) :
    Except String ValidationResult :=
  if schema_name ∈ schemas then
    match validateLoop schemas check schema_name 0 max_errors data with
    | .error e => .error e
    | .ok (v, inv, ex) =>
      .ok (.report (decide (inv = 0))
        { total_objects := data.length
          valid_count := v
          invalid_count := inv
          validation_success_rate :=
            if 0 < data.length then (v : ℚ) / (data.length : ℚ) else 0
          has_errors := decide (0 < inv)
          error_examples := ex })
  else .ok (.schemaMissing ("Schema " ++ schema_name ++ " not found"))

/-- Whether `validate_object` judges an object valid (assuming evaluation
does not raise). -/
def isValidObj (schemas : List String) (check : SchemaCheck)
    (schema_name : String) (obj : VObj) : Bool :=
  match validate_object schemas check obj schema_name with
  | .ok (b, _) => b
  | .error _ => false

/-- Closed-form description of the collected error examples: one example per
invalid object, in input order, indexed from `i`. -/
def invalidExamples (schemas : List String) (check : SchemaCheck) (schema_name : String) :
    Nat → List VObj → List ErrorExample
  | _, [] => []
  | i, obj :: rest =>
    match validate_object schemas check obj schema_name with
    | .ok (false, errs) => mkExample i obj errs :: invalidExamples schemas check schema_name (i + 1) rest
    | _ => invalidExamples schemas check schema_name (i + 1) rest

/-! ## Session adapter (src/utils/data_adapters/session_adapter.py) -/

/-- The sanitization of the composite id (line 259):
`start_time.replace(':', '-').replace('.', '-')`. -/
def sanitizeTime (s : String) : String :=
  ⟨s.data.map (fun c => if c = ':' ∨ c = '.' then '-' else c)⟩

/-- The id-generation step of `SessionAdapter._transform_row` /
`_transform_dict` (lines 255-263 / 331-339): keep an existing `session_id`;
else build the deterministic composite from `station_id` and `start_time`;
else fall back to `session-{uuid4()}`, with the random uuid an explicit
parameter. The session object is a dict of string fields. -/
def sessionEnsureId (uuid : String) (session : List (String × String)) :
    List (String × String) :=
  if (alookup session "session_id").isSome then session
  else
    match alookup session "station_id", alookup session "start_time" with
    | some st, some t => dinsert session "session_id" (st ++ "-" ++ sanitizeTime t)
    | _, _ => dinsert session "session_id" ("session-" ++ uuid)

/-- The id-generation step of `ForecastAdapter._transform_row` /
`_transform_dict` (lines 404-412 / 525-533), analogous to the session case
with `forecast_timestamp` in place of `start_time`. -/
def forecastEnsureId (uuid : String) (forecast : List (String × String)) :
    List (String × String) :=
  if (alookup forecast "forecast_id").isSome then forecast
  else
    match alookup forecast "station_id", alookup forecast "forecast_timestamp" with
    | some st, some t => dinsert forecast "forecast_id" (st ++ "-" ++ sanitizeTime t)
    | _, _ => dinsert forecast "forecast_id" ("forecast-" ++ uuid)

/-- `_format_datetime` (session_adapter.py lines 353-378) on a string value:
try `pd.to_datetime` (modelled by the parameter `parse`, `none` = raise) and
render ISO-8601 (modelled by `fmt`); on failure return the raw value. -/
def format_datetime (parse : String → Option Int) (fmt : Int → String) (s : String) : String :=
  match parse s with
  | some t => fmt t
  | none => s

/-- One entry of `energy_measurements` (lines 170-198). The numeric values
play no role in the verified properties and are carried as integers. -/
structure Measurement where
  timestamp : String
  energy_kwh : Option Int
  power_kw : Option Int
deriving DecidableEq, Repr

/-- `s.replace('Z', '+00:00')` at the character level (the pattern `"Z"` is a
single character, so occurrences cannot overlap). -/
def replaceZ (s : String) : String :=
  ⟨(s.data.map (fun c => if c = 'Z' then "+00:00".data else [c])).flatten⟩

/-- The sort key of lines 201-204:
`datetime.fromisoformat(x['timestamp'].replace('Z', '+00:00'))`, with
`fromIso` modelling `datetime.fromisoformat` (`none` = raise). -/
def isoKey (fromIso : String → Option Int) (s : String) : Option Int :=
  fromIso (replaceZ s)

/-- Insertion into a list sorted ascending by an integer key. -/
def insertByKey (key : Measurement → Int) (m : Measurement) :
    List Measurement → List Measurement
  | [] => [m]
  | x :: xs => if key m ≤ key x then m :: x :: xs else x :: insertByKey key m xs

/-- Sort measurements ascending by key. -/
def sortByKey (key : Measurement → Int) (l : List Measurement) : List Measurement :=
  l.foldr (insertByKey key) []

/-- `sorted(energy_measurements, key=lambda x: datetime.fromisoformat(...))`
(lines 201-204): CPython's `sorted` computes the key of every element first,
so one unparsable timestamp raises `ValueError` out of the transform. -/
def sortEnergyMeasurements (fromIso : String → Option Int) (ems : List Measurement) :
    Except String (List Measurement) :=
  if ems.all (fun m => (isoKey fromIso m.timestamp).isSome) then
    .ok (sortByKey (fun m => (isoKey fromIso m.timestamp).getD 0) ems)
  else
    .error "ValueError: invalid isoformat string"

/-- The datetime-relevant fields of the session built by `_transform_row`. -/
structure SessionTimes where
  start_time : Option String
  end_time : Option String
  duration_minutes : Option Int
  energy_measurements : Option (List Measurement)
deriving DecidableEq, Repr

/-- The datetime pipeline of `SessionAdapter._transform_row` (lines 136-204):
map `start_time`/`end_time` through `_format_datetime`; derive
`duration_minutes` from the formatted times inside a `try/except` whose
failure is caught (lines 147-154, the parse is `datetime.fromisoformat` on
the stored strings, so an unparsable raw value yields no duration, not an
exception); build `energy_measurements` from the `energy_<n>_time`/`_value`
pairs (each timestamp through `_format_datetime`) and, when non-empty, sort
them with the raising `fromisoformat` key of lines 201-204. Times are in
minutes. -/
def transformRowDates (parse : String → Option Int) (fmt : Int → String)
    (fromIso : String → Option Int) (startRaw endRaw : Option String)
    (energyPts : List (String × Int)) : Except String SessionTimes :=
  let st := startRaw.map (format_datetime parse fmt)
  let et := endRaw.map (format_datetime parse fmt)
  let dur : Option Int :=
    match st, et with
    | some s, some e =>
      match isoKey fromIso s, isoKey fromIso e with
      | some a, some b => some (b - a)
      | _, _ => none
    | _, _ => none
  let ems := energyPts.map (fun p =>
    { timestamp := format_datetime parse fmt p.1, energy_kwh := some p.2,
      power_kw := none : Measurement })
  if ems.isEmpty then
    .ok { start_time := st, end_time := et, duration_minutes := dur,
          energy_measurements := none }
  else
    match sortEnergyMeasurements fromIso ems with
    | .ok sortedEms =>
      .ok { start_time := st, end_time := et, duration_minutes := dur,
            energy_measurements := some sortedEms }
    | .error e => .error e

/-! ## Forecast adapter, time-series path
(src/utils/data_adapters/forecast_adapter.py, `_transform_time_series_df`) -/

/-- The resolution enum of lines 183-198 (and 383-398, 506-521): a
consecutive-timestamp delta in minutes mapped to the resolution label, any
other delta to `"{n}min"`. -/
def inferResolution (minutes : Nat) : String :=
  if minutes = 15 then "15min"
  else if minutes = 30 then "30min"
  else if minutes = 60 then "1hour"
  else if minutes = 180 then "3hour"
  else if minutes = 360 then "6hour"
  else if minutes = 720 then "12hour"
  else if minutes = 1440 then "1day"
  else toString minutes ++ "min"

/-- Insertion sort on `Nat`, modelling `timestamps.sort_values()`. -/
def insertNat (x : Nat) : List Nat → List Nat
  | [] => [x]
  | y :: ys => if x ≤ y then x :: y :: ys else y :: insertNat x ys

/-- Ascending sort on `Nat`. -/
def sortNat (l : List Nat) : List Nat := l.foldr insertNat []

/-- Deltas between consecutive elements, modelling
`timestamps.sort_values().diff().dropna()` (line 178) in minutes. -/
def consecDiffs : List Nat → List Nat
  | [] => []
  | [_] => []
  | a :: b :: rest => (b - a) :: consecDiffs (b :: rest)

/-- The sorted consecutive deltas of a timestamp list. -/
def sortedDiffs (ts : List Nat) : List Nat := consecDiffs (sortNat ts)

/-- `diffs.value_counts().idxmax()` (line 180): the first delta whose
occurrence count is maximal. -/
def modalDiff (diffs : List Nat) : Nat :=
  match diffs.find? (fun d => diffs.all (fun e => diffs.count e ≤ diffs.count d)) with
  | some d => d
  | none => 0

/-- `timestamps.min()`. -/
def natMin : List Nat → Nat
  | [] => 0
  | x :: xs => xs.foldl Nat.min x

/-- `timestamps.max()`. -/
def natMax : List Nat → Nat
  | [] => 0
  | x :: xs => xs.foldl Nat.max x

/-- The `prediction_horizon` object of lines 171-200, timestamps in
minutes. -/
structure PredictionHorizon where
  start_time : Nat
  end_time : Nat
  resolution : Option String
deriving DecidableEq, Repr

/-- The identifier/horizon fields of one forecast produced by
`_transform_time_series_df`. -/
structure TSForecast where
  station_id : String
  forecast_id : String
  forecast_timestamp : String
  prediction_horizon : Option PredictionHorizon
deriving DecidableEq, Repr

/-- The per-station group transform of `_transform_time_series_df`
(lines 158-200): `forecast_id` is
`f"forecast-{station_id}-{pd.Timestamp.now().strftime('%Y%m%d%H%M%S')}"` and
`forecast_timestamp` is also taken from the wall clock, with `now` the
formatted current time as an explicit parameter; the prediction horizon is
`[min, max]` of the group's timestamps with the resolution inferred from the
modal consecutive delta when there are at least two timestamps. -/
def transformTimeSeriesGroup (now : String) (stationId : String) (ts : List Nat) :
    TSForecast :=
  let base : TSForecast :=
    { station_id := stationId
      forecast_id := "forecast-" ++ stationId ++ "-" ++ now
      forecast_timestamp := now
      prediction_horizon := none }
  if ts.isEmpty then base
  else
    let res : Option String :=
      if 1 < ts.length then
        let diffs := sortedDiffs ts
        if diffs.isEmpty then none else some (inferResolution (modalDiff diffs))
      else none
    { base with
      prediction_horizon := some
        { start_time := natMin ts, end_time := natMax ts, resolution := res } }

/-! ## Supporting lemmas for the repository theorems -/

theorem stampMetadata_has_last_updated
    (md : List (String × List (String × MetaVal))) (dataset_id : String) (now : Nat)
    (entry : List (String × MetaVal)) (h : alookup md dataset_id = some entry) :
    ∃ e, alookup (stampMetadata md dataset_id now) dataset_id = some e
      ∧ (alookup e "last_updated").isSome := by
  unfold stampMetadata
  rw [h]
  by_cases hlu : (alookup entry "last_updated").isSome
  · exact ⟨entry, by simp [hlu, h]⟩
  · refine ⟨dinsert entry "last_updated" (MetaVal.time now), ?_, ?_⟩
    · simp [hlu, alookup_dinsert_self]
    · simp [alookup_dinsert_self]

theorem stampMetadata_preserves
    (md : List (String × List (String × MetaVal))) (dataset_id : String) (now : Nat)
    (entry : List (String × MetaVal)) (k : String) (v : MetaVal)
    (h : alookup md dataset_id = some entry) (hk : alookup entry k = some v) :
    ∃ e, alookup (stampMetadata md dataset_id now) dataset_id = some e
      ∧ alookup e k = some v := by
  unfold stampMetadata
  rw [h]
  by_cases hlu : (alookup entry "last_updated").isSome
  · exact ⟨entry, by simp [hlu, h], hk⟩
  · refine ⟨dinsert entry "last_updated" (MetaVal.time now), ?_, ?_⟩
    · simp [hlu, alookup_dinsert_self]
    · have hne : ("last_updated" : String) ≠ k := by
        intro he
        rw [← he] at hk
        simp [hk] at hlu
      rw [alookup_dinsert_ne entry "last_updated" k (MetaVal.time now) hne]
      exact hk

theorem get_dataset_after_register (run : Nat → Payload → Except String Unit) (now : Nat)
    (st : RepoState) (dataset_id : String) (data : Payload)
    (meta : Option (List (String × MetaVal))) :
    get_dataset (register_dataset run now st dataset_id data meta).1 dataset_id none
      = .ok data := by
  unfold get_dataset register_dataset
  simp only [alookup_dinsert_self]

/-- C1: `register_dataset(id, payload)` then `get_dataset(id)` with no
filters returns exactly the payload; a second registration under the same id
replaces the stored payload wholesale, so `get_dataset` returns exactly the
second payload; and a metadata dict passed to the second call is merged
key-by-key into the existing metadata for the id — every key of the new dict
takes its new value, and every key absent from the new dict keeps the value
it had — rather than resetting it. -/
theorem register_get_roundtrip_replace_and_merge
    (run run2 : Nat → Payload → Except String Unit) (now now2 : Nat)
    (st : RepoState) (dataset_id : String) (p p2 : Payload)
    (m1 : Option (List (String × MetaVal))) (m2 : List (String × MetaVal))
    (hnd : (m2.map Prod.fst).Nodup) (hm2 : m2 ≠ []) :
    get_dataset (register_dataset run now st dataset_id p m1).1 dataset_id none = .ok p
    ∧ get_dataset (register_dataset run2 now2
        (register_dataset run now st dataset_id p m1).1 dataset_id p2 (some m2)).1
        dataset_id none = .ok p2
    ∧ (∀ k v, alookup m2 k = some v →
        ∃ e2, alookup (register_dataset run2 now2
            (register_dataset run now st dataset_id p m1).1 dataset_id p2 (some m2)).1.metadata
            dataset_id = some e2 ∧ alookup e2 k = some v)
    ∧ (∀ k v e1, alookup m2 k = none →
        alookup (register_dataset run now st dataset_id p m1).1.metadata dataset_id = some e1 →
        alookup e1 k = some v →
        ∃ e2, alookup (register_dataset run2 now2
            (register_dataset run now st dataset_id p m1).1 dataset_id p2 (some m2)).1.metadata
            dataset_id = some e2 ∧ alookup e2 k = some v) := by
  refine ⟨get_dataset_after_register run now st dataset_id p m1,
          get_dataset_after_register run2 now2 _ dataset_id p2 (some m2), ?_, ?_⟩
  · intro k v hkv
    have hmerge : alookup
        (mergeMetadata (register_dataset run now st dataset_id p m1).1.metadata dataset_id
          (some m2)) dataset_id
        = some (dupdate
            ((alookup (register_dataset run now st dataset_id p m1).1.metadata dataset_id).getD [])
            m2) := by
      unfold mergeMetadata
      simp [hm2, alookup_dinsert_self]
    have hup : alookup (dupdate
        ((alookup (register_dataset run now st dataset_id p m1).1.metadata dataset_id).getD [])
        m2) k = some v :=
      alookup_dupdate_of_some _ m2 k v hnd hkv
    exact stampMetadata_preserves _ dataset_id now2 _ k v hmerge hup
  · intro k v e1 hknone he1 hk
    have hmerge : alookup
        (mergeMetadata (register_dataset run now st dataset_id p m1).1.metadata dataset_id
          (some m2)) dataset_id = some (dupdate e1 m2) := by
      unfold mergeMetadata
      simp [hm2, alookup_dinsert_self, he1]
    have hup : alookup (dupdate e1 m2) k = some v := by
      rw [alookup_dupdate_of_none e1 m2 k hknone]
      exact hk
    exact stampMetadata_preserves _ dataset_id now2 _ k v hmerge hup

/-- Witness for C1 at a concrete scenario: payload 7 then 8 under id "a",
first metadata `{schema: station, note: keep}`, second `{schema: v2}`; the
round-trip returns 7 then 8, `schema` is overwritten to `v2` and `note`
survives the merge. -/
theorem register_get_roundtrip_replace_and_merge_witness :
    get_dataset (register_dataset (fun _ _ => .ok ()) 1 initRepo "a" (.raw 7)
      (some [("schema", .str "station"), ("note", .str "keep")])).1 "a" none = .ok (.raw 7)
    ∧ get_dataset (register_dataset (fun _ _ => .ok ()) 2
        (register_dataset (fun _ _ => .ok ()) 1 initRepo "a" (.raw 7)
          (some [("schema", .str "station"), ("note", .str "keep")])).1 "a" (.raw 8)
        (some [("schema", .str "v2")])).1 "a" none = .ok (.raw 8)
    ∧ (∃ e2, alookup (register_dataset (fun _ _ => .ok ()) 2
        (register_dataset (fun _ _ => .ok ()) 1 initRepo "a" (.raw 7)
          (some [("schema", .str "station"), ("note", .str "keep")])).1 "a" (.raw 8)
        (some [("schema", .str "v2")])).1.metadata "a" = some e2
        ∧ alookup e2 "schema" = some (.str "v2"))
    ∧ (∃ e2, alookup (register_dataset (fun _ _ => .ok ()) 2
        (register_dataset (fun _ _ => .ok ()) 1 initRepo "a" (.raw 7)
          (some [("schema", .str "station"), ("note", .str "keep")])).1 "a" (.raw 8)
        (some [("schema", .str "v2")])).1.metadata "a" = some e2
        ∧ alookup e2 "note" = some (.str "keep")) := by
  obtain ⟨h1, h2, h3, h4⟩ := register_get_roundtrip_replace_and_merge
    (fun _ _ => .ok ()) (fun _ _ => .ok ()) 1 2 initRepo "a" (.raw 7) (.raw 8)
    (some [("schema", .str "station"), ("note", .str "keep")]) [("schema", .str "v2")]
    (by decide) (by decide)
  refine ⟨h1, h2, h3 "schema" (.str "v2") (by decide), ?_⟩
  exact h4 "note" (.str "keep")
    [("schema", MetaVal.str "station"), ("note", MetaVal.str "keep"),
     ("last_updated", MetaVal.time 1)] (by decide) (by decide) (by decide)

/-- C6: `get_dataset` on a never-registered id is the distinct not-found
failure `KeyError("Dataset not found: ...")` — an error naming the id, not a
normal return, hence never an empty collection and distinguishable from a
successful lookup whose payload happens to contain zero records. -/
theorem get_dataset_unknown_id_is_error (st : RepoState) (dataset_id : String)
    (filters : Option (List (String × FilterVal)))
    (h : alookup st.datasets dataset_id = none) :
    get_dataset st dataset_id filters = .error (.notFound dataset_id) := by
  unfold get_dataset
  rw [h]

/-- Witness for C6: the fresh repository has no "stations" dataset and the
lookup fails with the not-found error. -/
theorem get_dataset_unknown_id_is_error_witness :
    get_dataset initRepo "stations" none = .error (.notFound "stations") :=
  get_dataset_unknown_id_is_error initRepo "stations" none (by decide)

/-- C9 counterexample: on a fresh repository, `register_dataset("stations",
payload)` with no metadata argument leaves the `metadata` container with no
entry for the id at all, so it contains no `last_updated` key — the claim's
"including when no metadata argument is passed at all" fails because the
auto-stamp of lines 97-99 is guarded by `dataset_id in self.metadata`. -/
theorem register_no_metadata_leaves_no_entry :
    alookup (register_dataset (fun _ _ => .ok ()) 5 initRepo "stations"
      (.raw 0) none).1.metadata "stations" = none := by decide

/-- C9 as amended: `last_updated` is auto-stamped whenever the call leaves a
metadata entry for the id at all — i.e. when a non-empty metadata dict is
supplied, or the id already had a metadata entry; with no (or an empty)
metadata argument and no pre-existing entry, no metadata entry is created, so
there is nothing to stamp. -/
theorem register_stamps_last_updated_when_entry_exists
    (run : Nat → Payload → Except String Unit) (now : Nat) (st : RepoState)
    (dataset_id : String) (data : Payload) (meta : Option (List (String × MetaVal)))
    (h : (∃ m, meta = some m ∧ m ≠ []) ∨ (alookup st.metadata dataset_id).isSome) :
    ∃ e, alookup (register_dataset run now st dataset_id data meta).1.metadata dataset_id
      = some e ∧ (alookup e "last_updated").isSome := by
  rcases h with ⟨m, hm, hne⟩ | hsome
  · subst hm
    have hmerge : alookup (mergeMetadata st.metadata dataset_id (some m)) dataset_id
        = some (dupdate ((alookup st.metadata dataset_id).getD []) m) := by
      unfold mergeMetadata
      simp [hne, alookup_dinsert_self]
    exact stampMetadata_has_last_updated _ dataset_id now _ hmerge
  · obtain ⟨entry, hentry⟩ := Option.isSome_iff_exists.mp hsome
    have hmerge : alookup (mergeMetadata st.metadata dataset_id meta) dataset_id
        = some entry ∨
        alookup (mergeMetadata st.metadata dataset_id meta) dataset_id
        = some (dupdate entry meta.iget) := by
      unfold mergeMetadata
      cases meta with
      | none => exact .inl hentry
      | some m =>
        by_cases hm : m.isEmpty
        · simp [hm, hentry]
        · simp [hm, alookup_dinsert_self, hentry]
    rcases hmerge with hmg | hmg
    · exact stampMetadata_has_last_updated _ dataset_id now _ hmg
    · exact stampMetadata_has_last_updated _ dataset_id now _ hmg

/-- Witness for C9 as amended: registering under "a" when "a" already has a
(previously stamped or not) metadata entry, and registering with a non-empty
metadata dict, both leave `last_updated` present. -/
theorem register_stamps_last_updated_when_entry_exists_witness :
    ∃ e, alookup (register_dataset (fun _ _ => .ok ()) 9 initRepo "a" (.raw 1)
      (some [("schema", .str "s")])).1.metadata "a" = some e
      ∧ (alookup e "last_updated").isSome :=
  register_stamps_last_updated_when_entry_exists (fun _ _ => .ok ()) 9 initRepo "a" (.raw 1)
    (some [("schema", .str "s")]) (.inl ⟨[("schema", .str "s")], rfl, by decide⟩)

/-! ## C10: filters on absent columns are skipped -/

/-- Whether a row passes one filter condition, given the DataFrame's columns:
a filter on an absent column passes every row (it is skipped). -/
def rowPasses (cols : List String) (r : List (String × Cell)) (p : String × FilterVal) : Bool :=
  !(decide (p.1 ∈ cols)) || cellMatches (alookup r p.1) p.2

theorem applyFilter_cols (d : DataFrame) (col : String) (v : FilterVal) :
    (applyFilter d col v).cols = d.cols := by
  unfold applyFilter
  split <;> rfl

theorem applyFilters_cols (d : DataFrame) (fs : List (String × FilterVal)) :
    (applyFilters d fs).cols = d.cols := by
  induction fs generalizing d with
  | nil => rfl
  | cons p fs ih =>
    show (applyFilters (applyFilter d p.1 p.2) fs).cols = d.cols
    rw [ih, applyFilter_cols]

theorem applyFilters_rows (d : DataFrame) (fs : List (String × FilterVal)) :
    (applyFilters d fs).rows = d.rows.filter (fun r => fs.all (rowPasses d.cols r)) := by
  induction fs generalizing d with
  | nil => simp [applyFilters]
  | cons p fs ih =>
    show (applyFilters (applyFilter d p.1 p.2) fs).rows = _
    rw [ih, applyFilter_cols]
    by_cases hc : p.1 ∈ d.cols
    · have hrows : (applyFilter d p.1 p.2).rows
          = d.rows.filter (fun r => cellMatches (alookup r p.1) p.2) := by
        unfold applyFilter
        rw [if_pos hc]
      rw [hrows, List.filter_filter]
      apply List.filter_congr
      intro r _
      simp [rowPasses, hc, Bool.and_comm]
    · have hrows : (applyFilter d p.1 p.2).rows = d.rows := by
        unfold applyFilter
        rw [if_neg hc]
      rw [hrows]
      apply List.filter_congr
      intro r _
      simp [rowPasses, hc]

theorem applyFilters_absent_eq_self (d : DataFrame) (fs : List (String × FilterVal))
    (h : ∀ p ∈ fs, p.1 ∉ d.cols) : applyFilters d fs = d := by
  induction fs generalizing d with
  | nil => rfl
  | cons p fs ih =>
    show applyFilters (applyFilter d p.1 p.2) fs = d
    have hp : applyFilter d p.1 p.2 = d := by
      unfold applyFilter
      rw [if_neg (h p (List.mem_cons_self p fs))]
    rw [hp]
    exact ih d (fun q hq => h q (List.mem_cons_of_mem p hq))

/-- C10: for a registered DataFrame payload and a (non-empty) filters map,
`get_dataset` returns the payload filtered only by the predicates on columns
that exist — a filter key naming an absent column is silently skipped (passes
every row) — so a filters map referencing only absent columns returns the
full payload unchanged, never an error and never an emptied result. -/
theorem get_dataset_skips_absent_filter_columns (st : RepoState) (dataset_id : String)
    (d : DataFrame) (fs : List (String × FilterVal))
    (hd : alookup st.datasets dataset_id = some (.df d)) (hne : fs ≠ []) :
    get_dataset st dataset_id (some fs) = .ok (.df (applyFilters d fs))
    ∧ (applyFilters d fs).cols = d.cols
    ∧ (applyFilters d fs).rows = d.rows.filter (fun r => fs.all (rowPasses d.cols r))
    ∧ ((∀ p ∈ fs, p.1 ∉ d.cols) → get_dataset st dataset_id (some fs) = .ok (.df d)) := by
  have hget : get_dataset st dataset_id (some fs) = .ok (.df (applyFilters d fs)) := by
    unfold get_dataset
    rw [hd]
    simp [List.isEmpty_iff, hne]
  refine ⟨hget, applyFilters_cols d fs, applyFilters_rows d fs, ?_⟩
  intro habs
  rw [hget, applyFilters_absent_eq_self d fs habs]

/-- Witness for C10: a two-row DataFrame filtered by `{city: Madrid,
ghost_column: 1}` keeps only the Madrid row (the absent `ghost_column` filter
is skipped), and a filter referencing only `ghost_column` returns the
DataFrame unchanged. -/
theorem get_dataset_skips_absent_filter_columns_witness :
    get_dataset
      { initRepo with datasets := [("stations", .df
          { cols := ["id", "city"],
            rows := [[("id", .i 1), ("city", .s "Madrid")],
                     [("id", .i 2), ("city", .s "Lisbon")]] })] }
      "stations" (some [("city", .scalar (.s "Madrid")), ("ghost_column", .scalar (.i 1))])
      = .ok (.df { cols := ["id", "city"],
                   rows := [[("id", .i 1), ("city", .s "Madrid")]] })
    ∧ get_dataset
      { initRepo with datasets := [("stations", .df
          { cols := ["id", "city"],
            rows := [[("id", .i 1), ("city", .s "Madrid")],
                     [("id", .i 2), ("city", .s "Lisbon")]] })] }
      "stations" (some [("ghost_column", .scalar (.i 1))])
      = .ok (.df { cols := ["id", "city"],
                   rows := [[("id", .i 1), ("city", .s "Madrid")],
                            [("id", .i 2), ("city", .s "Lisbon")]] }) := by
  constructor
  · have h := get_dataset_skips_absent_filter_columns
      { initRepo with datasets := [("stations", .df
          { cols := ["id", "city"],
            rows := [[("id", .i 1), ("city", .s "Madrid")],
                     [("id", .i 2), ("city", .s "Lisbon")]] })] }
      "stations"
      { cols := ["id", "city"],
        rows := [[("id", .i 1), ("city", .s "Madrid")],
                 [("id", .i 2), ("city", .s "Lisbon")]] }
      [("city", .scalar (.s "Madrid")), ("ghost_column", .scalar (.i 1))]
      (by decide) (by decide)
    rw [h.1]
    rfl
  · have h := get_dataset_skips_absent_filter_columns
      { initRepo with datasets := [("stations", .df
          { cols := ["id", "city"],
            rows := [[("id", .i 1), ("city", .s "Madrid")],
                     [("id", .i 2), ("city", .s "Lisbon")]] })] }
      "stations"
      { cols := ["id", "city"],
        rows := [[("id", .i 1), ("city", .s "Madrid")],
                 [("id", .i 2), ("city", .s "Lisbon")]] }
      [("ghost_column", .scalar (.i 1))]
      (by decide) (by decide)
    exact h.2.2.2 (by decide)

/-! ## C5: subscription and notification -/

theorem notify_subscribers_eq_map (run : Nat → Payload → Except String Unit)
    (cbs : List Nat) (payload : Payload) :
    notify_subscribers run cbs payload = cbs.map (fun c => (c, payload)) := by
  induction cbs with
  | nil => rfl
  | cons c rest ih =>
    cases h : run c payload <;> simp [notify_subscribers, h, ih]

theorem subscribe_new_appends (st : RepoState) (dataset_id : String) (cb : Nat)
    (h : cb ∉ (alookup st.subscriptions dataset_id).getD []) :
    alookup (subscribe st dataset_id cb).subscriptions dataset_id
      = some ((alookup st.subscriptions dataset_id).getD [] ++ [cb]) := by
  unfold subscribe
  cases hsub : alookup st.subscriptions dataset_id with
  | none =>
    simp only [hsub, Option.getD_none] at h ⊢
    rw [alookup_dinsert_self]
    simp only [List.not_mem_nil, if_neg (fun hc => h hc)]
    have : alookup (dinsert (dinsert st.subscriptions dataset_id []) dataset_id [cb])
        dataset_id = some [cb] := alookup_dinsert_self _ _ _
    simpa using this
  | some cbs =>
    simp only [hsub, Option.getD_some] at h ⊢
    simp only [if_neg h]
    exact alookup_dinsert_self _ _ _

/-- C5: after `subscribe(id, cb)`, each `register_dataset(id, payload)`
invokes every subscriber exactly once with the stored payload, synchronously
in subscription order, for every possible subscriber behaviour — a raised
subscriber exception is caught inside `_notify_subscribers` and neither
propagates to the caller nor prevents later subscribers; a newly subscribed
callback is appended and invoked exactly once after the existing ones;
duplicate `subscribe` is a no-op; after `unsubscribe(id, cb)` the callback is
no longer invoked; and unsubscribing a never-subscribed callback is a no-op
returning `false`. -/
theorem subscribe_notify_unsubscribe
    (run : Nat → Payload → Except String Unit) (now : Nat) (st : RepoState)
    (dataset_id : String) (cbs : List Nat) (cb1 cb2 : Nat) (p : Payload)
    (meta : Option (List (String × MetaVal)))
    (h0 : alookup st.subscriptions dataset_id = some cbs)
    (hnd : cbs.Nodup) (h1 : cb1 ∈ cbs) (h2 : cb2 ∉ cbs) :
    (register_dataset run now st dataset_id p meta).2 = cbs.map (fun c => (c, p))
    ∧ notify_subscribers run cbs p = notify_subscribers (fun _ _ => .ok ()) cbs p
    ∧ subscribe st dataset_id cb1 = st
    ∧ (register_dataset run now (subscribe st dataset_id cb2) dataset_id p meta).2
        = cbs.map (fun c => (c, p)) ++ [(cb2, p)]
    ∧ (cb2, p) ∉ cbs.map (fun c => (c, p))
    ∧ (unsubscribe st dataset_id cb1).2 = true
    ∧ (register_dataset run now (unsubscribe st dataset_id cb1).1 dataset_id p meta).2
        = (cbs.erase cb1).map (fun c => (c, p))
    ∧ (∀ q ∈ (register_dataset run now (unsubscribe st dataset_id cb1).1
          dataset_id p meta).2, q.1 ≠ cb1)
    ∧ unsubscribe st dataset_id cb2 = (st, false) := by
  refine ⟨?_, ?_, ?_, ?_, ?_, ?_, ?_, ?_, ?_⟩
  · show notify_subscribers run ((alookup st.subscriptions dataset_id).getD []) p = _
    rw [h0, Option.getD_some, notify_subscribers_eq_map]
  · rw [notify_subscribers_eq_map, notify_subscribers_eq_map]
  · unfold subscribe
    rw [h0]
    simp only [h0, if_pos h1]
  · show notify_subscribers run
        ((alookup (subscribe st dataset_id cb2).subscriptions dataset_id).getD []) p = _
    rw [subscribe_new_appends st dataset_id cb2 (by rw [h0]; exact h2)]
    rw [h0, Option.getD_some, Option.getD_some, notify_subscribers_eq_map, List.map_append]
    rfl
  · intro hmem
    obtain ⟨c, hc, heq⟩ := List.mem_map.mp hmem
    have hcc : c = cb2 := congrArg Prod.fst heq
    exact h2 (hcc ▸ hc)
  · unfold unsubscribe
    rw [h0]
    simp [h1]
  · show notify_subscribers run
        ((alookup (unsubscribe st dataset_id cb1).1.subscriptions dataset_id).getD []) p = _
    have hun : (unsubscribe st dataset_id cb1).1.subscriptions
        = dinsert st.subscriptions dataset_id (cbs.erase cb1) := by
      unfold unsubscribe
      rw [h0]
      simp [h1]
    rw [hun, alookup_dinsert_self, Option.getD_some, notify_subscribers_eq_map]
  · intro q hq
    have hun : (unsubscribe st dataset_id cb1).1.subscriptions
        = dinsert st.subscriptions dataset_id (cbs.erase cb1) := by
      unfold unsubscribe
      rw [h0]
      simp [h1]
    have htr : (register_dataset run now (unsubscribe st dataset_id cb1).1
        dataset_id p meta).2 = (cbs.erase cb1).map (fun c => (c, p)) := by
      show notify_subscribers run
        ((alookup (unsubscribe st dataset_id cb1).1.subscriptions dataset_id).getD []) p = _
      rw [hun, alookup_dinsert_self, Option.getD_some, notify_subscribers_eq_map]
    rw [htr] at hq
    obtain ⟨c, hc, hceq⟩ := List.mem_map.mp hq
    intro hq1
    have hcc : c = cb1 := by
      have := congrArg Prod.fst hceq
      simpa [hq1] using this
    subst hcc
    exact (List.Nodup.mem_erase_iff hnd).mp hc |>.1 rfl
  · unfold unsubscribe
    rw [h0]
    simp [h2]

/-- Witness for C5 at a concrete scenario: subscribers `[1, 3]` on
"sessions", `cb1 = 3` (subscribed), `cb2 = 7` (not subscribed), payload 42,
and a subscriber behaviour in which callback 1 raises — callback 3 is still
invoked and the trace is unchanged. -/
theorem subscribe_notify_unsubscribe_witness :
    (register_dataset (fun c _ => if c = 1 then .error "boom" else .ok ()) 0
      { initRepo with subscriptions := [("sessions", [1, 3])] }
      "sessions" (.raw 42) none).2 = [(1, .raw 42), (3, .raw 42)]
    ∧ subscribe { initRepo with subscriptions := [("sessions", [1, 3])] } "sessions" 3
        = { initRepo with subscriptions := [("sessions", [1, 3])] }
    ∧ (register_dataset (fun c _ => if c = 1 then .error "boom" else .ok ()) 0
        (subscribe { initRepo with subscriptions := [("sessions", [1, 3])] } "sessions" 7)
        "sessions" (.raw 42) none).2 = [(1, .raw 42), (3, .raw 42), (7, .raw 42)]
    ∧ (unsubscribe { initRepo with subscriptions := [("sessions", [1, 3])] } "sessions" 3).2
        = true
    ∧ (register_dataset (fun c _ => if c = 1 then .error "boom" else .ok ()) 0
        (unsubscribe { initRepo with subscriptions := [("sessions", [1, 3])] } "sessions" 3).1
        "sessions" (.raw 42) none).2 = [(1, .raw 42)]
    ∧ unsubscribe { initRepo with subscriptions := [("sessions", [1, 3])] } "sessions" 7
        = ({ initRepo with subscriptions := [("sessions", [1, 3])] }, false) := by
  obtain ⟨a, _, c, d, _, f, g, _, i⟩ := subscribe_notify_unsubscribe
    (fun c _ => if c = 1 then .error "boom" else .ok ()) 0
    { initRepo with subscriptions := [("sessions", [1, 3])] }
    "sessions" [1, 3] 3 7 (.raw 42) none (by decide) (by decide) (by decide) (by decide)
  exact ⟨a, c, d, f, g, i⟩

/-! ## C2: identifier determinism across runs -/

theorem string_append_left_cancel (a b c : String) (h : a ++ b = a ++ c) : b = c := by
  have hd : (a ++ b).data = (a ++ c).data := congrArg String.data h
  rw [String.data_append, String.data_append] at hd
  exact String.ext (List.append_cancel_left hd)

theorem transformTimeSeriesGroup_forecast_id (now stationId : String) (ts : List Nat) :
    (transformTimeSeriesGroup now stationId ts).forecast_id
      = "forecast-" ++ stationId ++ "-" ++ now := by
  unfold transformTimeSeriesGroup
  by_cases h : ts.isEmpty <;> simp [h]

/-- C2 counterexample: the Forecast time-series transform
(`_transform_time_series_df`, lines 158-165) embeds the wall-clock time
`pd.Timestamp.now()` in the generated `forecast_id`, so two runs of the same
transform on the identical input (station "ST-001", timestamps 0 and 15
minutes) at different clock readings generate different identifiers, even
though the deterministic composite (station_id, timestamps) is derivable. -/
theorem forecast_ts_id_not_deterministic :
    (transformTimeSeriesGroup "20250101000000" "ST-001" [0, 15]).forecast_id
      ≠ (transformTimeSeriesGroup "20250101000001" "ST-001" [0, 15]).forecast_id := by decide

/-- C2 as amended: on the Session row/dict paths and the Forecast row/dict
paths, a record lacking its identifier field gets the deterministic composite
id (station_id plus the sanitized timestamp) whenever station_id and the
timestamp are derivable, and two runs on identical input generate identical
ids there — the random-uuid fallback is not consulted; but on the Forecast
time-series path the generated `forecast_id` embeds the current wall-clock
time, so two runs at different clock readings generate different ids for the
same input. -/
theorem adapter_id_determinism
    (u1 u2 : String) (session forecast : List (String × String))
    (stS tS stF tF : String) (now1 now2 stationId : String) (ts : List Nat)
    (hs1 : alookup session "session_id" = none)
    (hs2 : alookup session "station_id" = some stS)
    (hs3 : alookup session "start_time" = some tS)
    (hf1 : alookup forecast "forecast_id" = none)
    (hf2 : alookup forecast "station_id" = some stF)
    (hf3 : alookup forecast "forecast_timestamp" = some tF)
    (hnow : now1 ≠ now2) :
    sessionEnsureId u1 session = sessionEnsureId u2 session
    ∧ alookup (sessionEnsureId u1 session) "session_id"
        = some (stS ++ "-" ++ sanitizeTime tS)
    ∧ forecastEnsureId u1 forecast = forecastEnsureId u2 forecast
    ∧ alookup (forecastEnsureId u1 forecast) "forecast_id"
        = some (stF ++ "-" ++ sanitizeTime tF)
    ∧ (transformTimeSeriesGroup now1 stationId ts).forecast_id
        ≠ (transformTimeSeriesGroup now2 stationId ts).forecast_id := by
  have hses : ∀ u, sessionEnsureId u session
      = dinsert session "session_id" (stS ++ "-" ++ sanitizeTime tS) := by
    intro u
    unfold sessionEnsureId
    rw [hs1, hs2, hs3]
    rfl
  have hfc : ∀ u, forecastEnsureId u forecast
      = dinsert forecast "forecast_id" (stF ++ "-" ++ sanitizeTime tF) := by
    intro u
    unfold forecastEnsureId
    rw [hf1, hf2, hf3]
    rfl
  refine ⟨by rw [hses u1, hses u2], ?_, by rw [hfc u1, hfc u2], ?_, ?_⟩
  · rw [hses u1]
    exact alookup_dinsert_self _ _ _
  · rw [hfc u1]
    exact alookup_dinsert_self _ _ _
  · rw [transformTimeSeriesGroup_forecast_id, transformTimeSeriesGroup_forecast_id]
    intro h
    exact hnow (string_append_left_cancel _ _ _ h)

/-- Witness for C2 as amended: a session row `{station_id: ST-001,
start_time: 2024-01-01T10:00:00.000Z}` and a forecast dict `{station_id:
ST-001, forecast_timestamp: 2024-01-01T10:00:00.000Z}`, transformed with two
different uuid draws and, for the time-series path, at two different clock
readings. -/
theorem adapter_id_determinism_witness :
    sessionEnsureId "uuid-a" [("station_id", "ST-001"),
        ("start_time", "2024-01-01T10:00:00.000Z")]
      = sessionEnsureId "uuid-b" [("station_id", "ST-001"),
        ("start_time", "2024-01-01T10:00:00.000Z")]
    ∧ alookup (sessionEnsureId "uuid-a" [("station_id", "ST-001"),
        ("start_time", "2024-01-01T10:00:00.000Z")]) "session_id"
      = some "ST-001-2024-01-01T10-00-00-000Z"
    ∧ (transformTimeSeriesGroup "20250101000000" "ST-001" [0, 15]).forecast_id
      ≠ (transformTimeSeriesGroup "20250101000001" "ST-001" [0, 15]).forecast_id := by
  obtain ⟨a, b, _, _, e⟩ := adapter_id_determinism "uuid-a" "uuid-b"
    [("station_id", "ST-001"), ("start_time", "2024-01-01T10:00:00.000Z")]
    [("station_id", "ST-001"), ("forecast_timestamp", "2024-01-01T10:00:00.000Z")]
    "ST-001" "2024-01-01T10:00:00.000Z" "ST-001" "2024-01-01T10:00:00.000Z"
    "20250101000000" "20250101000001" "ST-001" [0, 15]
    (by decide) (by decide) (by decide) (by decide) (by decide) (by decide) (by decide)
  exact ⟨a, by rw [b]; decide, e⟩

/-! ## C7: malformed date/time values -/

/-- A tiny concrete stand-in for `pd.to_datetime` used in closed statements:
it recognises two fixed timestamps (in minutes) and fails on anything
else. -/
def demoParse : String → Option Int := fun s =>
  if s = "2024-01-01 00:00" then some 0
  else if s = "2024-01-01 00:15" then some 15
  else none

/-- A tiny concrete stand-in for `strftime('%Y-%m-%dT%H:%M:%S.%fZ')` used in
closed statements. -/
def demoFmt : Int → String := fun n => "ISO(" ++ toString n ++ ")"

/-- A tiny concrete stand-in for `datetime.fromisoformat` used in closed
statements: it recognises only `demoFmt` outputs of the two fixed
timestamps. -/
def demoIso : String → Option Int := fun s =>
  if s = "ISO(0)" then some 0
  else if s = "ISO(15)" then some 15
  else none

/-- C7 counterexample: a session row with valid start/end times and one
malformed `energy_1_time` value "not-a-date". `_format_datetime` preserves
the raw value, but the `sorted(..., key=datetime.fromisoformat(...))` call of
`_transform_row` lines 201-204 then raises `ValueError` on that raw value, so
the transform does not complete — the claim that the transform never raises
on malformed date/time values fails. -/
theorem transform_row_raises_on_malformed_energy_time :
    transformRowDates demoParse demoFmt demoIso
      (some "2024-01-01 00:00") (some "2024-01-01 00:15") [("not-a-date", 5)]
      = .error "ValueError: invalid isoformat string" := by rfl

theorem list_all_map {α β : Type} (f : α → β) (l : List α) (p : β → Bool) :
    (l.map f).all p = l.all (fun a => p (f a)) := by
  induction l with
  | nil => rfl
  | cons a l ih => simp [List.all_cons, ih]

theorem transformRowDates_isOk (parse : String → Option Int) (fmt : Int → String)
    (fromIso : String → Option Int) (startRaw endRaw : Option String)
    (pts : List (String × Int))
    (hpts : ∀ p ∈ pts, (isoKey fromIso (format_datetime parse fmt p.1)).isSome = true) :
    (transformRowDates parse fmt fromIso startRaw endRaw pts).isOk = true := by
  unfold transformRowDates
  by_cases hemp : (pts.map (fun p : String × Int =>
      ({ timestamp := format_datetime parse fmt p.1, energy_kwh := some p.2,
         power_kw := none } : Measurement))).isEmpty
  · simp only [if_pos hemp]
    rfl
  · have hall : ((pts.map fun p : String × Int =>
        ({ timestamp := format_datetime parse fmt p.1, energy_kwh := some p.2,
           power_kw := none } : Measurement)).all
        (fun m => (isoKey fromIso m.timestamp).isSome)) = true := by
      rw [list_all_map, List.all_eq_true]
      intro p hp
      exact hpts p hp
    simp only [hemp, sortEnergyMeasurements, hall, if_true, if_false, Bool.false_eq_true]
    rfl

/-- C7 as amended: `_format_datetime` itself never raises — on an unparsable
string it returns the raw value — and a row whose malformed date/time values
appear only in the scalar `start_time`/`end_time` fields completes without
raising, with the raw values preserved in the output record and the caught
`duration` failure simply omitting `duration_minutes`; but when a malformed
timestamp flows into the `energy_<n>_time` series, the sort key
`datetime.fromisoformat` of lines 201-204 raises and the whole row transform
fails, so the transform completes exactly when every (formatted) series
timestamp is parsable. -/
theorem format_datetime_total_and_row_dates
    (parse : String → Option Int) (fmt : Int → String) (fromIso : String → Option Int)
    (s : String) (startRaw endRaw : Option String) (pts : List (String × Int))
    (hs : parse s = none)
    (hpts : ∀ p ∈ pts, (isoKey fromIso (format_datetime parse fmt p.1)).isSome = true) :
    format_datetime parse fmt s = s
    ∧ (∃ r, transformRowDates parse fmt fromIso startRaw endRaw [] = .ok r
        ∧ r.start_time = startRaw.map (format_datetime parse fmt)
        ∧ r.end_time = endRaw.map (format_datetime parse fmt)
        ∧ r.energy_measurements = none)
    ∧ (transformRowDates parse fmt fromIso startRaw endRaw pts).isOk = true := by
  refine ⟨?_, ?_, transformRowDates_isOk parse fmt fromIso startRaw endRaw pts hpts⟩
  · unfold format_datetime
    rw [hs]
  · exact ⟨_, rfl, rfl, rfl, rfl⟩

/-- Witness for C7 as amended, with the demo parsers: "garbage" is preserved
raw by `_format_datetime`; a row whose start/end times are "garbage" and
"2024-01-01 00:15" and with no measurement series completes; and a row whose
two `energy_<n>_time` values are both parsable completes. -/
theorem format_datetime_total_and_row_dates_witness :
    format_datetime demoParse demoFmt "garbage" = "garbage"
    ∧ (∃ r, transformRowDates demoParse demoFmt demoIso
        (some "garbage") (some "2024-01-01 00:15") [] = .ok r
        ∧ r.start_time = (some "garbage").map (format_datetime demoParse demoFmt)
        ∧ r.end_time = (some "2024-01-01 00:15").map (format_datetime demoParse demoFmt)
        ∧ r.energy_measurements = none)
    ∧ (transformRowDates demoParse demoFmt demoIso
        (some "garbage") (some "2024-01-01 00:15")
        [("2024-01-01 00:15", 7), ("2024-01-01 00:00", 3)]).isOk = true := by
  exact format_datetime_total_and_row_dates demoParse demoFmt demoIso
    "garbage" (some "garbage") (some "2024-01-01 00:15")
    [("2024-01-01 00:15", 7), ("2024-01-01 00:00", 3)] (by decide) (by decide)

/-! ## C8: prediction-horizon resolution, start and end -/

theorem foldl_min_mem (xs : List Nat) (x : Nat) : xs.foldl Nat.min x ∈ x :: xs := by
  induction xs generalizing x with
  | nil => exact List.mem_singleton.mpr rfl
  | cons a xs ih =>
    have h := ih (Nat.min x a)
    rw [List.foldl_cons]
    rcases List.mem_cons.mp h with h | h
    · rw [h]
      rcases Nat.le_total x a with hle | hle
      · have hm : Nat.min x a = x := Nat.min_eq_left hle
        rw [hm]
        exact .head _
      · have hm : Nat.min x a = a := Nat.min_eq_right hle
        rw [hm]
        exact .tail _ (.head _)
    · exact .tail _ (.tail _ h)

theorem foldl_min_le (xs : List Nat) (x : Nat) :
    ∀ y ∈ x :: xs, xs.foldl Nat.min x ≤ y := by
  induction xs generalizing x with
  | nil =>
    intro y hy
    rw [List.mem_singleton.mp hy]
    exact Nat.le_refl _
  | cons a xs ih =>
    intro y hy
    rw [List.foldl_cons]
    have hx : xs.foldl Nat.min (Nat.min x a) ≤ Nat.min x a :=
      ih (Nat.min x a) _ (.head _)
    rcases List.mem_cons.mp hy with h | h
    · subst h
      exact Nat.le_trans hx (Nat.min_le_left y a)
    · rcases List.mem_cons.mp h with h | h
      · subst h
        exact Nat.le_trans hx (Nat.min_le_right x y)
      · exact ih (Nat.min x a) y (.tail _ h)

theorem foldl_max_mem (xs : List Nat) (x : Nat) : xs.foldl Nat.max x ∈ x :: xs := by
  induction xs generalizing x with
  | nil => exact List.mem_singleton.mpr rfl
  | cons a xs ih =>
    have h := ih (Nat.max x a)
    rw [List.foldl_cons]
    rcases List.mem_cons.mp h with h | h
    · rw [h]
      rcases Nat.le_total x a with hle | hle
      · have hm : Nat.max x a = a := Nat.max_eq_right hle
        rw [hm]
        exact .tail _ (.head _)
      · have hm : Nat.max x a = x := Nat.max_eq_left hle
        rw [hm]
        exact .head _
    · exact .tail _ (.tail _ h)

theorem foldl_max_ge (xs : List Nat) (x : Nat) :
    ∀ y ∈ x :: xs, y ≤ xs.foldl Nat.max x := by
  induction xs generalizing x with
  | nil =>
    intro y hy
    rw [List.mem_singleton.mp hy]
    exact Nat.le_refl _
  | cons a xs ih =>
    intro y hy
    rw [List.foldl_cons]
    have hx : Nat.max x a ≤ xs.foldl Nat.max (Nat.max x a) :=
      ih (Nat.max x a) _ (.head _)
    rcases List.mem_cons.mp hy with h | h
    · subst h
      exact Nat.le_trans (Nat.le_max_left y a) hx
    · rcases List.mem_cons.mp h with h | h
      · subst h
        exact Nat.le_trans (Nat.le_max_right x y) hx
      · exact ih (Nat.max x a) y (.tail _ h)

theorem natMin_spec (l : List Nat) (h : l ≠ []) : natMin l ∈ l ∧ ∀ y ∈ l, natMin l ≤ y := by
  cases l with
  | nil => exact absurd rfl h
  | cons x xs => exact ⟨foldl_min_mem xs x, foldl_min_le xs x⟩

theorem natMax_spec (l : List Nat) (h : l ≠ []) : natMax l ∈ l ∧ ∀ y ∈ l, y ≤ natMax l := by
  cases l with
  | nil => exact absurd rfl h
  | cons x xs => exact ⟨foldl_max_mem xs x, foldl_max_ge xs x⟩

theorem modalDiff_eq_of_unique_mode (diffs : List Nat) (d : Nat)
    (hd : d ∈ diffs)
    (hu : ∀ e ∈ diffs, e ≠ d → diffs.count e < diffs.count d) :
    modalDiff diffs = d := by
  unfold modalDiff
  have hpred : (fun x => diffs.all (fun e => diffs.count e ≤ diffs.count x)) d = true := by
    rw [List.all_eq_true]
    intro e he
    by_cases hed : e = d
    · subst hed
      exact decide_eq_true (Nat.le_refl _)
    · exact decide_eq_true (Nat.le_of_lt (hu e he hed))
  cases hfind : diffs.find? (fun x => diffs.all (fun e => diffs.count e ≤ diffs.count x)) with
  | none =>
    exfalso
    exact absurd hpred (by simpa using List.find?_eq_none.mp hfind d hd)
  | some x =>
    have hx := List.find?_some hfind
    have hxm := List.mem_of_find?_eq_some hfind
    by_cases hxd : x = d
    · simp [hxd]
    · exfalso
      rw [List.all_eq_true] at hx
      have hle : diffs.count d ≤ diffs.count x := of_decide_eq_true (hx d hd)
      exact absurd hle (Nat.not_le.mpr (hu x hxm hxd))

theorem insertNat_length (x : Nat) (l : List Nat) :
    (insertNat x l).length = l.length + 1 := by
  induction l with
  | nil => rfl
  | cons b m ihm =>
    unfold insertNat
    by_cases hb : x ≤ b
    · simp [hb]
    · simp [hb, ihm]

theorem sortNat_length (l : List Nat) : (sortNat l).length = l.length := by
  unfold sortNat
  induction l with
  | nil => rfl
  | cons a l ih =>
    rw [List.foldr_cons, insertNat_length, ih]
    rfl

theorem sortedDiffs_length_pos (ts : List Nat) (h : 1 < ts.length) :
    sortedDiffs ts ≠ [] := by
  have hlen : (sortNat ts).length = ts.length := sortNat_length ts
  have hdl : ∀ l : List Nat, 1 < l.length → consecDiffs l ≠ [] := by
    intro l hl
    match l with
    | [] => simp at hl
    | [_] => simp at hl
    | a :: b :: rest => simp [consecDiffs]
  unfold sortedDiffs
  exact hdl (sortNat ts) (hlen ▸ h)

/-- C8: for a forecast built by the time-series transform from at least two
timestamps, when `d` is the strict modal (most frequent) delta between
consecutive sorted timestamps, the inferred `prediction_horizon.resolution`
is exactly the fixed enum image of `d` — 15 → "15min", 30 → "30min",
60 → "1hour", 180 → "3hour", 360 → "6hour", 720 → "12hour", 1440 → "1day",
any other `n` → "nmin" — and `start_time`/`end_time` are the minimum and
maximum timestamps of the series. -/
theorem ts_forecast_horizon_and_resolution (now stationId : String) (ts : List Nat)
    (h2 : 2 ≤ ts.length) (d : Nat) (hd : d ∈ sortedDiffs ts)
    (hu : ∀ e ∈ sortedDiffs ts, e ≠ d →
      (sortedDiffs ts).count e < (sortedDiffs ts).count d) :
    ∃ h, (transformTimeSeriesGroup now stationId ts).prediction_horizon = some h
      ∧ h.resolution = some (inferResolution d)
      ∧ h.start_time ∈ ts ∧ (∀ y ∈ ts, h.start_time ≤ y)
      ∧ h.end_time ∈ ts ∧ (∀ y ∈ ts, y ≤ h.end_time)
      ∧ inferResolution 15 = "15min" ∧ inferResolution 30 = "30min"
      ∧ inferResolution 60 = "1hour" ∧ inferResolution 180 = "3hour"
      ∧ inferResolution 360 = "6hour" ∧ inferResolution 720 = "12hour"
      ∧ inferResolution 1440 = "1day"
      ∧ (∀ n, n ∉ ([15, 30, 60, 180, 360, 720, 1440] : List Nat) →
          inferResolution n = toString n ++ "min") := by
  have hne : ts ≠ [] := by
    intro h
    rw [h] at h2
    simp at h2
  have hlt : 1 < ts.length := h2
  have hdne : sortedDiffs ts ≠ [] := sortedDiffs_length_pos ts hlt
  have hhor : (transformTimeSeriesGroup now stationId ts).prediction_horizon
      = some { start_time := natMin ts, end_time := natMax ts,
               resolution := some (inferResolution (modalDiff (sortedDiffs ts))) } := by
    unfold transformTimeSeriesGroup
    have hemp : ts.isEmpty = false := by
      cases ts with
      | nil => exact absurd rfl hne
      | cons a l => rfl
    simp only [hemp, Bool.false_eq_true, if_false, hlt, if_true,
      List.isEmpty_iff, hdne, if_false]
  refine ⟨_, hhor, ?_, ?_, ?_, ?_, ?_, rfl, rfl, rfl, rfl, rfl, rfl, rfl, ?_⟩
  · show some (inferResolution (modalDiff (sortedDiffs ts))) = some (inferResolution d)
    rw [modalDiff_eq_of_unique_mode (sortedDiffs ts) d hd hu]
  · exact (natMin_spec ts hne).1
  · exact (natMin_spec ts hne).2
  · exact (natMax_spec ts hne).1
  · exact (natMax_spec ts hne).2
  · intro n hn
    simp only [List.mem_cons, List.not_mem_nil, or_false] at hn
    push_neg at hn
    obtain ⟨n15, n30, n60, n180, n360, n720, n1440⟩ := hn
    unfold inferResolution
    simp [n15, n30, n60, n180, n360, n720, n1440]

/-- Witness for C8: timestamps [0, 15, 30, 60] (minutes); sorted deltas are
[15, 15, 30], the strict mode is 15, so the resolution is "15min" and the
horizon is [0, 60]; 45 falls through the enum to "45min". -/
theorem ts_forecast_horizon_and_resolution_witness :
    ∃ h, (transformTimeSeriesGroup "20240101000000" "ST-001"
        [0, 15, 30, 60]).prediction_horizon = some h
      ∧ h.resolution = some "15min"
      ∧ h.start_time = 0 ∧ h.end_time = 60
      ∧ inferResolution 45 = "45min" := by
  obtain ⟨h, hhor, hres, hmem, hle, hmax, hge, -, -, -, -, -, -, -, hfall⟩ :=
    ts_forecast_horizon_and_resolution "20240101000000" "ST-001" [0, 15, 30, 60]
      (by decide) 15 (by decide) (by decide)
  refine ⟨h, hhor, by rw [hres]; rfl, ?_, ?_, hfall 45 (by decide)⟩
  · have h1 := hle 0 (by decide)
    omega
  · have h1 := hge 60 (by decide)
    simp only [List.mem_cons, List.not_mem_nil, or_false] at hmax
    rcases hmax with h2 | h2 | h2 | h2 <;> omega

/-! ## C3 and C4: the validator's report and its exception behaviour -/

theorem validate_object_error_iff (schemas : List String) (check : SchemaCheck)
    (obj : VObj) (schema_name : String) (e : String) :
    validate_object schemas check obj schema_name = .error e ↔
      schema_name ∈ schemas ∧ check schema_name obj = .error e := by
  unfold validate_object
  by_cases hs : schema_name ∈ schemas
  · simp only [if_pos hs]
    cases hc : check schema_name obj with
    | error e' => simp [hs]
    | ok msgs => cases msgs <;> simp [hs]
  · simp [hs]

theorem validate_object_ok_of_check_ok (schemas : List String) (check : SchemaCheck)
    (obj : VObj) (schema_name : String)
    (hok : (check schema_name obj).isOk = true) :
    validate_object schemas check obj schema_name
      = .ok (isValidObj schemas check schema_name obj,
             (validate_object schemas check obj schema_name).toOption.elim [] Prod.snd) := by
  cases hvo : validate_object schemas check obj schema_name with
  | error e =>
    obtain ⟨-, hce⟩ := (validate_object_error_iff schemas check obj schema_name e).mp hvo
    rw [hce] at hok
    simp [Except.isOk, Except.toBool] at hok
  | ok br =>
    obtain ⟨b, errs⟩ := br
    have hb : isValidObj schemas check schema_name obj = b := by
      unfold isValidObj
      rw [hvo]
    rw [hb]
    rfl

theorem length_filter_not_add {α : Type} (p : α → Bool) (l : List α) :
    (l.filter p).length + (l.filter (fun a => !p a)).length = l.length := by
  induction l with
  | nil => rfl
  | cons a l ih => cases h : p a <;> simp [List.filter_cons, h] <;> omega

theorem invalidExamples_cons_valid (schemas : List String) (check : SchemaCheck)
    (schema_name : String) (i : Nat) (obj : VObj) (rest : List VObj) (errs : List String)
    (hvo : validate_object schemas check obj schema_name = .ok (true, errs)) :
    invalidExamples schemas check schema_name i (obj :: rest)
      = invalidExamples schemas check schema_name (i + 1) rest := by
  conv_lhs => rw [invalidExamples]
  rw [hvo]

theorem invalidExamples_cons_invalid (schemas : List String) (check : SchemaCheck)
    (schema_name : String) (i : Nat) (obj : VObj) (rest : List VObj) (errs : List String)
    (hvo : validate_object schemas check obj schema_name = .ok (false, errs)) :
    invalidExamples schemas check schema_name i (obj :: rest)
      = mkExample i obj errs :: invalidExamples schemas check schema_name (i + 1) rest := by
  conv_lhs => rw [invalidExamples]
  rw [hvo]

theorem validateLoop_nil (schemas : List String) (check : SchemaCheck)
    (schema_name : String) (i budget : Nat) :
    validateLoop schemas check schema_name i budget [] = .ok (0, 0, []) := rfl

theorem validateLoop_cons_error (schemas : List String) (check : SchemaCheck)
    (schema_name : String) (i budget : Nat) (obj : VObj) (rest : List VObj) (e : String)
    (hvo : validate_object schemas check obj schema_name = .error e) :
    validateLoop schemas check schema_name i budget (obj :: rest) = .error e := by
  conv_lhs => rw [validateLoop]
  rw [hvo]

theorem validateLoop_cons_valid (schemas : List String) (check : SchemaCheck)
    (schema_name : String) (i budget : Nat) (obj : VObj) (rest : List VObj)
    (errs : List String)
    (hvo : validate_object schemas check obj schema_name = .ok (true, errs)) :
    validateLoop schemas check schema_name i budget (obj :: rest)
      = match validateLoop schemas check schema_name (i + 1) budget rest with
        | Except.error e => Except.error e
        | Except.ok (v, inv, ex) => Except.ok (v + 1, inv, ex) := by
  conv_lhs => rw [validateLoop]
  rw [hvo]

theorem validateLoop_cons_invalid (schemas : List String) (check : SchemaCheck)
    (schema_name : String) (i budget : Nat) (obj : VObj) (rest : List VObj)
    (errs : List String)
    (hvo : validate_object schemas check obj schema_name = .ok (false, errs)) :
    validateLoop schemas check schema_name i budget (obj :: rest)
      = if 0 < budget then
          match validateLoop schemas check schema_name (i + 1) (budget - 1) rest with
          | Except.error e => Except.error e
          | Except.ok (v, inv, ex) => Except.ok (v, inv + 1, mkExample i obj errs :: ex)
        else
          match validateLoop schemas check schema_name (i + 1) budget rest with
          | Except.error e => Except.error e
          | Except.ok (v, inv, ex) => Except.ok (v, inv + 1, ex) := by
  conv_lhs => rw [validateLoop]
  rw [hvo]

theorem validateLoop_eq (schemas : List String) (check : SchemaCheck) (schema_name : String)
    (data : List VObj) :
    ∀ i budget : Nat,
    (∀ obj ∈ data, (check schema_name obj).isOk = true) →
    validateLoop schemas check schema_name i budget data =
      .ok ((data.filter (isValidObj schemas check schema_name)).length,
           (data.filter (fun o => !isValidObj schemas check schema_name o)).length,
           (invalidExamples schemas check schema_name i data).take budget) := by
  induction data with
  | nil =>
    intro i budget _
    rw [validateLoop_nil]
    have h1 : invalidExamples schemas check schema_name i [] = [] := rfl
    rw [h1, List.take_nil]
    rfl
  | cons obj rest ih =>
    intro i budget hok
    have hobj := hok obj (List.mem_cons_self obj rest)
    have hrest : ∀ o ∈ rest, (check schema_name o).isOk = true :=
      fun o ho => hok o (List.mem_cons_of_mem obj ho)
    cases hvo : validate_object schemas check obj schema_name with
    | error e =>
      obtain ⟨-, hce⟩ := (validate_object_error_iff schemas check obj schema_name e).mp hvo
      rw [hce] at hobj
      simp [Except.isOk, Except.toBool] at hobj
    | ok br =>
      obtain ⟨b, errs⟩ := br
      have hb : isValidObj schemas check schema_name obj = b := by
        unfold isValidObj
        rw [hvo]
      cases b with
      | true =>
        rw [validateLoop_cons_valid schemas check schema_name i budget obj rest errs hvo,
          ih (i + 1) budget hrest,
          invalidExamples_cons_valid schemas check schema_name i obj rest errs hvo,
          List.filter_cons, List.filter_cons]
        simp [hb]
      | false =>
        rw [validateLoop_cons_invalid schemas check schema_name i budget obj rest errs hvo,
          invalidExamples_cons_invalid schemas check schema_name i obj rest errs hvo,
          List.filter_cons, List.filter_cons]
        by_cases hbud : 0 < budget
        · obtain ⟨b', rfl⟩ : ∃ b', budget = b' + 1 :=
            ⟨budget - 1, (Nat.succ_pred_eq_of_pos hbud).symm⟩
          rw [if_pos hbud, ih (i + 1) (b' + 1 - 1) hrest]
          simp [hb]
        · have hb0 : budget = 0 := Nat.eq_zero_of_not_pos hbud
          subst hb0
          rw [if_neg hbud, ih (i + 1) 0 hrest]
          simp [hb]

theorem invalidExamples_length (schemas : List String) (check : SchemaCheck)
    (schema_name : String) (data : List VObj) :
    ∀ i : Nat,
    (∀ obj ∈ data, (check schema_name obj).isOk = true) →
    (invalidExamples schemas check schema_name i data).length
      = (data.filter (fun o => !isValidObj schemas check schema_name o)).length := by
  induction data with
  | nil =>
    intro i _
    rfl
  | cons obj rest ih =>
    intro i hok
    have hobj := hok obj (List.mem_cons_self obj rest)
    have hrest : ∀ o ∈ rest, (check schema_name o).isOk = true :=
      fun o ho => hok o (List.mem_cons_of_mem obj ho)
    cases hvo : validate_object schemas check obj schema_name with
    | error e =>
      obtain ⟨-, hce⟩ := (validate_object_error_iff schemas check obj schema_name e).mp hvo
      rw [hce] at hobj
      simp [Except.isOk, Except.toBool] at hobj
    | ok br =>
      obtain ⟨b, errs⟩ := br
      have hb : isValidObj schemas check schema_name obj = b := by
        unfold isValidObj
        rw [hvo]
      rw [List.filter_cons]
      cases b with
      | true =>
        rw [invalidExamples_cons_valid schemas check schema_name i obj rest errs hvo]
        simp [hb, ih (i + 1) hrest]
      | false =>
        rw [invalidExamples_cons_invalid schemas check schema_name i obj rest errs hvo]
        simp [hb, ih (i + 1) hrest]

theorem findIdentifier_eq_find (fields : List String) (obj : VObj) :
    findIdentifier fields obj
      = (fields.find? (fun f => (alookup obj f).isSome)).bind (alookup obj) := by
  induction fields with
  | nil => rfl
  | cons f rest ih =>
    cases h : alookup obj f with
    | some v =>
      have hl : findIdentifier (f :: rest) obj = some v := by
        conv_lhs => rw [findIdentifier]
        rw [h]
      rw [hl, List.find?_cons_of_pos _ (by simp [h])]
      simp [h]
    | none =>
      have hl : findIdentifier (f :: rest) obj = findIdentifier rest obj := by
        conv_lhs => rw [findIdentifier]
        rw [h]
      rw [hl, List.find?_cons_of_neg _ (by simp [h])]
      exact ih

/-- C3: for a loaded schema and a collection of N objects whose schema
evaluation does not raise, `validate_data` returns a report with
`total_objects = N`, `valid_count + invalid_count = N`,
`validation_success_rate = valid_count / N` (and 0 when N = 0), `has_errors`
iff `invalid_count > 0`, `error_examples` the first
`min(invalid_count, max_errors)` invalid objects, each carrying the object's
index, the identifier drawn in priority order from
id/station_id/session_id/forecast_id, and its violation messages; the boolean
result is true iff `invalid_count = 0`. -/
theorem validate_data_report_correct (schemas : List String) (check : SchemaCheck)
    (data : List VObj) (schema_name : String) (max_errors : Nat)
    (hs : schema_name ∈ schemas)
    (hok : ∀ obj ∈ data, (check schema_name obj).isOk = true) :
    ∃ ok r, validate_data schemas check data schema_name max_errors = .ok (.report ok r)
      ∧ r.total_objects = data.length
      ∧ r.valid_count = (data.filter (isValidObj schemas check schema_name)).length
      ∧ r.invalid_count
          = (data.filter (fun o => !isValidObj schemas check schema_name o)).length
      ∧ r.valid_count + r.invalid_count = data.length
      ∧ (data.length = 0 → r.validation_success_rate = 0)
      ∧ (0 < data.length →
          r.validation_success_rate = (r.valid_count : ℚ) / (data.length : ℚ))
      ∧ (r.has_errors = true ↔ 0 < r.invalid_count)
      ∧ r.error_examples = (invalidExamples schemas check schema_name 0 data).take max_errors
      ∧ r.error_examples.length = min r.invalid_count max_errors
      ∧ (ok = true ↔ r.invalid_count = 0)
      ∧ (∀ obj : VObj, findIdentifier idPriority obj
          = (idPriority.find? (fun f => (alookup obj f).isSome)).bind (alookup obj)) := by
  have hloop := validateLoop_eq schemas check schema_name data 0 max_errors hok
  refine ⟨decide ((data.filter (fun o => !isValidObj schemas check schema_name o)).length = 0),
    { total_objects := data.length
      valid_count := (data.filter (isValidObj schemas check schema_name)).length
      invalid_count := (data.filter (fun o => !isValidObj schemas check schema_name o)).length
      validation_success_rate :=
        if 0 < data.length then
          ((data.filter (isValidObj schemas check schema_name)).length : ℚ)
            / (data.length : ℚ)
        else 0
      has_errors :=
        decide (0 < (data.filter (fun o => !isValidObj schemas check schema_name o)).length)
      error_examples := (invalidExamples schemas check schema_name 0 data).take max_errors },
    ?_, rfl, rfl, rfl, ?_, ?_, ?_, ?_, rfl, ?_, ?_, ?_⟩
  · unfold validate_data
    rw [if_pos hs, hloop]
  · exact length_filter_not_add _ data
  · intro h0
    simp [h0]
  · intro hpos
    simp [hpos]
  · simp [decide_eq_true_eq]
  · show ((invalidExamples schemas check schema_name 0 data).take max_errors).length = _
    rw [List.length_take,
      invalidExamples_length schemas check schema_name data 0 hok, Nat.min_comm]
  · simp [decide_eq_true_eq]
  · exact fun obj => findIdentifier_eq_find idPriority obj

/-- The data of the C3/C4 witnesses: the second object violates the schema
(the demo checker reports "is bad" when the field `bad` is present); the
second object has no `id` but a `station_id`, exercising the identifier
priority order. -/
def demoData : List VObj :=
  [[("id", .s "x")], [("bad", .i 1), ("station_id", .s "st")], [("ok", .i 2)]]

/-- A concrete stand-in for `Draft7Validator(schema).iter_errors` used in
closed statements: flags objects having a `bad` field. -/
def demoCheck : SchemaCheck := fun _ obj =>
  .ok (if (alookup obj "bad").isSome then ["is bad"] else [])

/-- Witness for C3: three objects, one invalid, under the demo checker. -/
theorem validate_data_report_correct_witness :
    ∃ ok r, validate_data ["session_schema"] demoCheck demoData "session_schema" 10
        = .ok (.report ok r)
      ∧ r.total_objects = 3
      ∧ r.valid_count = 2
      ∧ r.invalid_count = 1
      ∧ r.validation_success_rate = (2 : ℚ) / 3
      ∧ r.has_errors = true
      ∧ r.error_examples
          = [{ index := 1, identifier := some (.s "st"), errors := ["is bad"] }]
      ∧ ok = false := by
  obtain ⟨ok, r, heq, ht, hv, hi, -, -, hrate, hhe, hex, -, hok, -⟩ :=
    validate_data_report_correct ["session_schema"] demoCheck demoData "session_schema" 10
      (by decide) (by decide)
  have hv2 : r.valid_count = 2 := by
    rw [hv]
    rfl
  have hi1 : r.invalid_count = 1 := by
    rw [hi]
    rfl
  refine ⟨ok, r, heq, by rw [ht]; rfl, hv2, hi1, ?_, ?_, ?_, ?_⟩
  · rw [hrate (by rw [ht] at *; exact (by decide : (0 : Nat) < 3)), hv2]
    norm_num [demoData]
  · exact hhe.mpr (by omega)
  · rw [hex]
    rfl
  · cases hco : ok with
    | true => exact absurd (hok.mp hco) (by omega)
    | false => rfl

/-- C4 counterexample: `validate_object` and `validate_data` contain no
`try/except` around schema evaluation, so when evaluation raises on a record
the exception propagates to the caller — the record is not counted invalid
and no report carrying the exception text is produced. -/
theorem validation_raises_on_unevaluable_record :
    validate_data ["session_schema"] (fun _ _ => .error "TypeError: boom")
      [[("id", Cell.s "x")]] "session_schema" 10 = .error "TypeError: boom" := by rfl

theorem validateLoop_propagates_error (schemas : List String) (check : SchemaCheck)
    (schema_name : String) (pre : List VObj) (obj : VObj) (post : List VObj) (e : String)
    (hs : schema_name ∈ schemas)
    (hpre : ∀ o ∈ pre, (check schema_name o).isOk = true)
    (hobj : check schema_name obj = .error e) :
    ∀ i budget : Nat,
    validateLoop schemas check schema_name i budget (pre ++ obj :: post) = .error e := by
  induction pre with
  | nil =>
    intro i budget
    have hvo : validate_object schemas check obj schema_name = .error e :=
      (validate_object_error_iff schemas check obj schema_name e).mpr ⟨hs, hobj⟩
    rw [List.nil_append]
    exact validateLoop_cons_error schemas check schema_name i budget obj post e hvo
  | cons o pre ih =>
    intro i budget
    have ho := hpre o (List.mem_cons_self o pre)
    have hpre' : ∀ q ∈ pre, (check schema_name q).isOk = true :=
      fun q hq => hpre q (List.mem_cons_of_mem o hq)
    rw [List.cons_append]
    cases hvo : validate_object schemas check o schema_name with
    | error e' =>
      obtain ⟨-, hce⟩ := (validate_object_error_iff schemas check o schema_name e').mp hvo
      rw [hce] at ho
      simp [Except.isOk, Except.toBool] at ho
    | ok br =>
      obtain ⟨b, errs⟩ := br
      cases b with
      | true =>
        rw [validateLoop_cons_valid schemas check schema_name i budget o
            (pre ++ obj :: post) errs hvo,
          ih hpre' (i + 1) budget]
      | false =>
        rw [validateLoop_cons_invalid schemas check schema_name i budget o
            (pre ++ obj :: post) errs hvo]
        by_cases hbud : 0 < budget
        · rw [if_pos hbud, ih hpre' (i + 1) (budget - 1)]
        · rw [if_neg hbud, ih hpre' (i + 1) budget]

/-- C4 as amended: the validation functions are pure — they read their input
and build fresh outputs, never mutating — but schema evaluation is not
wrapped in any `try/except`: when evaluation raises on a record (all earlier
records evaluating normally), the exception propagates unchanged out of
`validate_object` and `validate_data`; the record is not counted invalid and
the exception text does not appear as an error message in any report. -/
theorem validation_exception_propagates (schemas : List String) (check : SchemaCheck)
    (schema_name : String) (pre post : List VObj) (obj : VObj) (e : String) (max_errors : Nat)
    (hs : schema_name ∈ schemas)
    (hpre : ∀ o ∈ pre, (check schema_name o).isOk = true)
    (hobj : check schema_name obj = .error e) :
    validate_object schemas check obj schema_name = .error e
    ∧ validate_data schemas check (pre ++ obj :: post) schema_name max_errors = .error e := by
  refine ⟨(validate_object_error_iff schemas check obj schema_name e).mpr ⟨hs, hobj⟩, ?_⟩
  unfold validate_data
  rw [if_pos hs,
    validateLoop_propagates_error schemas check schema_name pre obj post e hs hpre hobj]

/-- Witness for C4 as amended: a checker that raises "TypeError: boom" on
objects carrying an `explode` field, applied to a three-object collection
whose middle object explodes. -/
theorem validation_exception_propagates_witness :
    validate_object ["s"]
      (fun _ obj => if (alookup obj "explode").isSome
        then .error "TypeError: boom" else .ok []) [("explode", .i 1)] "s"
      = .error "TypeError: boom"
    ∧ validate_data ["s"]
      (fun _ obj => if (alookup obj "explode").isSome
        then .error "TypeError: boom" else .ok [])
      ([[("id", .s "a")]] ++ [("explode", .i 1)] :: [[("id", .s "b")]]) "s" 10
      = .error "TypeError: boom" := by
  exact validation_exception_propagates ["s"]
    (fun _ obj => if (alookup obj "explode").isSome
      then .error "TypeError: boom" else .ok [])
    "s" [[("id", .s "a")]] [[("id", .s "b")]] [("explode", .i 1)] "TypeError: boom" 10
    (by decide) (by decide) (by rfl)

end Spec2Proof
